import Mathlib

/-!
Verification of the usage-accounting and admission-control core of the
Wiki-Synth repository, shallowly embedded from the JavaScript source.

Embedding conventions:
- timestamps are integers (milliseconds, as JavaScript Date values);
- JavaScript numbers holding money are modelled as rationals;
- counters are natural numbers;
- mongoose documents become structures; instance methods become functions
  on those structures;
- an awaited store operation that may throw is modelled as an
  Except Unit value supplied to the caller.
-/

namespace WikiSynth

/-- The responseStatus enum of the apiCallSchema in src/models/ApiCall.js.
Note the schema has no pending member; the default value is success. -/
inductive ResponseStatus
  | success
  | error
  | timeout
  | rate_limited
  deriving DecidableEq, Repr

/-- One apicalls document, restricted to the fields the accounting core
reads or writes (src/models/ApiCall.js). Defaults follow the schema. -/
structure ApiCall where
  responseStatus : ResponseStatus := .success
  completedAt : Option Int := none
  responseTime : Option Nat := none
  tokensUsedTotal : Nat := 0
  responseSize : Option Nat := none
  errorMessage : Option String := none
  errorCode : Option String := none
  cost : ℚ := 0
  timestamp : Int := 0
  deriving DecidableEq, Repr

/-- The responseData argument of markCompleted. A JavaScript field that is
absent or falsy leaves the document field untouched, hence Option. -/
structure ResponseData where
  responseTime : Option Nat := none
  tokensUsedTotal : Option Nat := none
  responseSize : Option Nat := none
  deriving DecidableEq, Repr

/-- markCompleted from src/models/ApiCall.js: unconditionally sets
completedAt to now and responseStatus to success, then copies whichever
responseData fields are present. There is no guard on the current state. -/
def ApiCall.markCompleted (c : ApiCall) (now : Int) (rd : ResponseData) : ApiCall :=
  let c1 : ApiCall := { c with completedAt := some now, responseStatus := .success }
  let c2 : ApiCall :=
    match rd.responseTime with
    | some t => { c1 with responseTime := some t }
    | none => c1
  let c3 : ApiCall :=
    match rd.tokensUsedTotal with
    | some t => { c2 with tokensUsedTotal := t }
    | none => c2
  match rd.responseSize with
  | some s => { c3 with responseSize := some s }
  | none => c3

/-- markFailed from src/models/ApiCall.js: unconditionally sets
completedAt, responseStatus is set to error, and the error fields are copied
from the thrown error. There is no guard on the current state. -/
def ApiCall.markFailed (c : ApiCall) (now : Int) (errMsg errCode : String) : ApiCall :=
  { c with completedAt := some now, responseStatus := .error,
           errorMessage := some errMsg, errorCode := some errCode }

/-- The limits subdocument of the pricingSchema (src/models/Pricing.js,
concatenated into src/models/ApiCall.js in this snapshot). -/
structure PlanLimits where
  monthlyCalls : Nat
  dailyCalls : Nat
  requestsPerMinute : Nat := 10
  batchSize : Nat := 1
  deriving DecidableEq, Repr

/-- The features subdocument of the pricingSchema, restricted to the flags
the accounting core consults. -/
structure PlanFeatures where
  basicSummary : Bool := true
  batchProcessing : Bool := false
  deriving DecidableEq, Repr

/-- A pricings document, restricted to the fields the core reads. -/
structure Pricing where
  plan : String
  pricePerCall : ℚ
  limits : PlanLimits
  features : PlanFeatures
  deriving DecidableEq, Repr

/-- hasFeature from the pricingSchema: a dynamic lookup of a boolean flag,
true only when the flag is present and set. -/
def Pricing.hasFeature (p : Pricing) (featureName : String) : Bool :=
  if featureName = "basicSummary" then p.features.basicSummary
  else if featureName = "batchProcessing" then p.features.batchProcessing
  else false

/-- getEffectivePrice from the pricingSchema: the per-unit price with the
hardcoded volume discounts, applied on strict comparisons with the call
count (callCount greater than 10000 gives 0.9, greater than 1000 gives 0.95). -/
def Pricing.getEffectivePrice (p : Pricing) (callCount : Nat) : ℚ :=
  if callCount > 10000 then p.pricePerCall * (9 / 10)
  else if callCount > 1000 then p.pricePerCall * (19 / 20)
  else p.pricePerCall

/-- The usage subdocument of the userSchema (src/models/User.js). The
monthlyReset date is abstracted away: whether a reset is due is passed to
the operations as a boolean (the calendar computation of
shouldResetMonthlyUsage is exogenous to the accounting core). -/
structure Usage where
  totalCalls : Nat := 0
  monthlyCalls : Nat := 0
  lastCallAt : Option Int := none
  deriving DecidableEq, Repr

/-- The mutable per-user accounting state: the usage counters and
totalSpent from the userSchema. -/
structure UserState where
  usage : Usage := {}
  totalSpent : ℚ := 0
  deriving DecidableEq, Repr

/-- The per-plan limit table returned by getUsageLimits in
src/models/User.js. -/
structure UsageLimits where
  monthly : Nat
  daily : Nat
  deriving DecidableEq, Repr

/-- getUsageLimits from src/models/User.js: a hardcoded table keyed by the
subscription plan name, falling back to the free limits for any other
plan name. -/
def getUsageLimits (plan : String) : UsageLimits :=
  if plan = "free" then { monthly := 100, daily := 10 }
  else if plan = "basic" then { monthly := 1000, daily := 100 }
  else if plan = "premium" then { monthly := 10000, daily := 1000 }
  else if plan = "enterprise" then { monthly := 100000, daily := 10000 }
  else { monthly := 100, daily := 10 }

/-- canMakeApiCall from src/models/User.js: compares the monthly counter
against the hardcoded table only; the pricing catalog is not consulted. -/
def canMakeApiCall (plan : String) (usageMonthlyCalls : Nat) : Bool :=
  decide (usageMonthlyCalls < (getUsageLimits plan).monthly)

/-- incrementUsage from src/models/User.js: adds one call (never more) to
both counters, stamps lastCallAt, and accumulates the cost into totalSpent. -/
def UserState.incrementUsage (u : UserState) (cost : ℚ) (now : Int) : UserState :=
  { usage := { totalCalls := u.usage.totalCalls + 1,
               monthlyCalls := u.usage.monthlyCalls + 1,
               lastCallAt := some now },
    totalSpent := u.totalSpent + cost }

/-- checkMonthlyReset from src/models/User.js: when a reset is due, the
monthly counter is zeroed (and the reset date restamped, not tracked here). -/
def checkMonthlyReset (shouldReset : Bool) (u : UserState) : UserState :=
  if shouldReset then { u with usage := { u.usage with monthlyCalls := 0 } } else u

/-- The outcome of the plan rate-limit middleware in
src/middleware/rateLimit.js: allow stands for calling next(), the other
constructors are the structured error responses it sends. -/
inductive Decision
  | allow
  | pricingError
  | monthlyLimitExceeded
  | dailyLimitExceeded
  | rateLimitExceeded
  deriving DecidableEq, Repr

/-- The aggregation over the apicalls collection used for the daily check:
events of the user whose timestamp is at or after midnight of the current
calendar day (today.setHours(0,0,0,0)). No condition on responseStatus. -/
def todaysCallCount (events : List ApiCall) (startOfToday : Int) : Nat :=
  (events.filter (fun e => decide (startOfToday ≤ e.timestamp))).length

/-- The aggregation used for the per-minute check: events of the user whose
timestamp is within the trailing sixty seconds. No condition on
responseStatus. -/
def recentCallCount (events : List ApiCall) (now : Int) : Nat :=
  (events.filter (fun e => decide (now - 60000 ≤ e.timestamp))).length

/-- The body of the plan rate-limit middleware (src/middleware/rateLimit.js,
inside the try block, after the admin short-circuit). Each awaited store
operation is supplied as an Except Unit value; a thrown error propagates,
short-circuiting exactly as the awaits do in the source. The checks run in
source order: plan lookup, monthly reset plus monthly check, daily check,
per-minute check. -/
def planRateLimitBody (getPlanResult : Except Unit (Option Pricing))
    (resetUsageResult : Except Unit Nat)
    (dailyAggResult minuteAggResult : Except Unit (List ApiCall))
    (now startOfToday : Int) : Except Unit Decision :=
  match getPlanResult with
  | .error e => .error e
  | .ok none => .ok .pricingError
  | .ok (some pricing) =>
    match resetUsageResult with
    | .error e => .error e
    | .ok currentUsage =>
      if pricing.limits.monthlyCalls ≤ currentUsage then .ok .monthlyLimitExceeded
      else
        match dailyAggResult with
        | .error e => .error e
        | .ok dailyEvents =>
          if pricing.limits.dailyCalls ≤ todaysCallCount dailyEvents startOfToday then
            .ok .dailyLimitExceeded
          else
            match minuteAggResult with
            | .error e => .error e
            | .ok recentEvents =>
              if pricing.limits.requestsPerMinute ≤ recentCallCount recentEvents now then
                .ok .rateLimitExceeded
              else .ok .allow

/-- The plan rate-limit middleware of src/middleware/rateLimit.js: admin
users are passed through before any check; otherwise the body runs and any
error it throws is caught, logged, and answered by calling next(), that is
by allowing the request. -/
def planRateLimit (role : String) (getPlanResult : Except Unit (Option Pricing))
    (resetUsageResult : Except Unit Nat)
    (dailyAggResult minuteAggResult : Except Unit (List ApiCall))
    (now startOfToday : Int) : Decision :=
  if role = "admin" then .allow
  else
    match planRateLimitBody getPlanResult resetUsageResult dailyAggResult
        minuteAggResult now startOfToday with
    | .ok d => d
    | .error _ => .allow

/-- The whole persistent state one user's requests touch: the user document
counters and the user's apicalls log. -/
structure ServerState where
  user : UserState := {}
  apicalls : List ApiCall := []
  deriving DecidableEq, Repr

/-- The checkMonthlyReset call made at the start of the pipeline (the
middleware performs it, and the controller repeats it, which is a no-op in
the same instant). -/
def resetStage (shouldReset : Bool) (st : ServerState) : ServerState :=
  { st with user := checkMonthlyReset shouldReset st.user }

/-- The ApiCall document created by getSummary before the external work:
cost is the effective price at the pre-request count, status is the schema
default. -/
def newApiCall (pricing : Pricing) (st : ServerState) (now : Int) : ApiCall :=
  { cost := pricing.getEffectivePrice st.user.usage.monthlyCalls, timestamp := now }

/-- The getSummary controller of src/controllers (single summary), after the
middleware allowed the request: check canMakeApiCall against the hardcoded
table, fetch the plan (a missing plan throws, leaving state unchanged),
record the call, run the external work, and close the record. Only the
success path calls incrementUsage; the catch path calls markFailed and does
not touch the usage counters. -/
def summaryController (plan : String) (pricingLookup : Option Pricing) (now : Int)
    (extOk : Bool) (rd : ResponseData) (errMsg errCode : String)
    (st : ServerState) : ServerState :=
  if canMakeApiCall plan st.user.usage.monthlyCalls then
    match pricingLookup with
    | none => st
    | some pricing =>
      if extOk then
        { user := st.user.incrementUsage
            (pricing.getEffectivePrice st.user.usage.monthlyCalls) now,
          apicalls := st.apicalls ++ [(newApiCall pricing st now).markCompleted now rd] }
      else
        { user := st.user,
          apicalls := st.apicalls ++ [(newApiCall pricing st now).markFailed now errMsg errCode] }
  else st

/-- The ApiCall document created by getBatchSummaries: cost is the effective
price at the pre-request count multiplied by the number of items. -/
def newBatchApiCall (pricing : Pricing) (st : ServerState) (now : Int) (n : Nat) : ApiCall :=
  { cost := pricing.getEffectivePrice st.user.usage.monthlyCalls * n, timestamp := now }

/-- The getBatchSummaries controller, after the middleware allowed the
request: the express-validator bound of one to ten items, the
batchProcessing feature gate (a missing plan is answered 403 as well), the
batchSize cap, and the remaining-quota check
(limits.monthlyCalls - usage.monthlyCalls, compared with the item count as
JavaScript numbers, hence over the integers). On the admitted path the
whole batch is recorded as one ApiCall and incrementUsage is called once,
so the monthly counter grows by one, not by the item count. -/
def batchController (pricingLookup : Option Pricing) (now : Int) (n : Nat)
    (extOk : Bool) (rd : ResponseData) (errMsg errCode : String)
    (st : ServerState) : ServerState :=
  if n < 1 ∨ 10 < n then st
  else
    match pricingLookup with
    | none => st
    | some pricing =>
      if pricing.hasFeature "batchProcessing" then
        if n ≤ pricing.limits.batchSize then
          if (pricing.limits.monthlyCalls : Int) - (st.user.usage.monthlyCalls : Int) < (n : Int)
          then st
          else
            if extOk then
              { user := st.user.incrementUsage
                  (pricing.getEffectivePrice st.user.usage.monthlyCalls * n) now,
                apicalls := st.apicalls ++ [(newBatchApiCall pricing st now n).markCompleted now rd] }
            else
              { user := st.user,
                apicalls := st.apicalls ++ [(newBatchApiCall pricing st now n).markFailed now errMsg errCode] }
        else st
      else st

/-- One POST /api/summary request end to end along the route
auth, rateLimit, getSummary: the monthly-reset stage, then the plan
rate-limit middleware reading the post-reset counters and the apicalls log
(store reads succeed here; the catch path of the middleware is modelled
separately through planRateLimitBody errors), then the controller when the
middleware called next(). -/
def handleSummary (role plan : String) (pricingLookup : Option Pricing)
    (shouldReset : Bool) (now startOfToday : Int) (extOk : Bool)
    (rd : ResponseData) (errMsg errCode : String) (st : ServerState) : ServerState :=
  if planRateLimit role (Except.ok pricingLookup)
       (Except.ok (resetStage shouldReset st).user.usage.monthlyCalls)
       (Except.ok (resetStage shouldReset st).apicalls)
       (Except.ok (resetStage shouldReset st).apicalls) now startOfToday
     = Decision.allow
  then summaryController plan pricingLookup now extOk rd errMsg errCode
        (resetStage shouldReset st)
  else resetStage shouldReset st

/-- One POST /api/summary/batch request end to end along the route
auth, rateLimit, getBatchSummaries. -/
def handleBatch (role : String) (pricingLookup : Option Pricing)
    (shouldReset : Bool) (now startOfToday : Int) (n : Nat) (extOk : Bool)
    (rd : ResponseData) (errMsg errCode : String) (st : ServerState) : ServerState :=
  if planRateLimit role (Except.ok pricingLookup)
       (Except.ok (resetStage shouldReset st).user.usage.monthlyCalls)
       (Except.ok (resetStage shouldReset st).apicalls)
       (Except.ok (resetStage shouldReset st).apicalls) now startOfToday
     = Decision.allow
  then batchController pricingLookup now n extOk rd errMsg errCode
        (resetStage shouldReset st)
  else resetStage shouldReset st

/-- An admission operation: one single-summary or one batch request, with
its request-time parameters (whether the monthly reset fires, the clock,
whether the external work succeeds, and the closing metadata). -/
inductive AdmissionOp
  | summary (shouldReset : Bool) (now startOfToday : Int) (extOk : Bool)
      (rd : ResponseData) (errMsg errCode : String)
  | batch (shouldReset : Bool) (now startOfToday : Int) (n : Nat) (extOk : Bool)
      (rd : ResponseData) (errMsg errCode : String)

/-- Apply one admission operation for a user with the given role,
subscription plan name and pricing catalog document. -/
def applyOp (role plan : String) (pricingLookup : Option Pricing)
    (st : ServerState) : AdmissionOp → ServerState
  | .summary sr now sod extOk rd m c =>
      handleSummary role plan pricingLookup sr now sod extOk rd m c st
  | .batch sr now sod n extOk rd m c =>
      handleBatch role pricingLookup sr now sod n extOk rd m c st

/-- Run a sequence of admission operations, each completing before the next
begins. -/
def runOps (role plan : String) (pricingLookup : Option Pricing)
    (st : ServerState) : List AdmissionOp → ServerState
  | [] => st
  | op :: ops => runOps role plan pricingLookup (applyOp role plan pricingLookup st op) ops

/-! Specification-side definitions, written from the words of the
specification for comparison with the code-side definitions above. -/

/-- The per-unit price as the specification words it: pricePerCall
multiplied by the factor of the highest-threshold discount tier whose
callCountThreshold is less than or equal to the count, pricePerCall
unmultiplied when no tier matches. Tiers are listed with strictly
increasing thresholds, so the highest matching tier is the last one kept
by the filter. -/
def specTierPriceInclusive (tiers : List (Nat × ℚ)) (pricePerCall : ℚ) (k : Nat) : ℚ :=
  match (tiers.filter (fun t => decide (t.1 ≤ k))).getLast? with
  | some t => pricePerCall * t.2
  | none => pricePerCall

/-- The same tiered price with strict thresholds: the highest tier whose
callCountThreshold is strictly below the count, matching the source's
greater-than comparisons. -/
def specTierPriceStrict (tiers : List (Nat × ℚ)) (pricePerCall : ℚ) (k : Nat) : ℚ :=
  match (tiers.filter (fun t => decide (t.1 < k))).getLast? with
  | some t => pricePerCall * t.2
  | none => pricePerCall

/-- The daily check as the specification words it: count the user's usage
events inside a rolling trailing twenty-four-hour window measured backward
from now, restricted to completed or pending events, and deny exactly when
that count plus the requested unit count exceeds the daily limit. The
schema of the code has no pending state, so completed is read as the
success status. -/
def specRollingDailyDenies (events : List ApiCall) (now : Int)
    (unitCount dailyLimit : Nat) : Bool :=
  decide (dailyLimit <
    (events.filter (fun e =>
      decide (now - 86400000 ≤ e.timestamp) && (e.responseStatus == ResponseStatus.success))).length
    + unitCount)

/-! Concrete fixtures used by the closed theorems below. The free plan
mirrors the document seeded by src/tests/api.test.js. -/

/-- The free plan exactly as the test suite seeds it: monthly 10, daily 5,
two requests per minute, batch size 1, price 0. -/
def pFree : Pricing :=
  { plan := "free", pricePerCall := 0,
    limits := { monthlyCalls := 10, dailyCalls := 5, requestsPerMinute := 2, batchSize := 1 },
    features := {} }

/-- A batch-capable plan: batchProcessing on, batch size 5, monthly 10. -/
def pBatch : Pricing :=
  { plan := "premium", pricePerCall := 1 / 100,
    limits := { monthlyCalls := 10, dailyCalls := 5, requestsPerMinute := 5, batchSize := 5 },
    features := { basicSummary := true, batchProcessing := true } }

/-- A plan document with price 0.01 per call, for the discount scenarios. -/
def pScenario : Pricing :=
  { plan := "basic", pricePerCall := 1 / 100,
    limits := { monthlyCalls := 1000, dailyCalls := 100, requestsPerMinute := 10, batchSize := 1 },
    features := {} }

/-- A plan with a daily limit of one, to separate the two daily-window
readings. -/
def pDaily1 : Pricing :=
  { plan := "free", pricePerCall := 0,
    limits := { monthlyCalls := 10, dailyCalls := 1, requestsPerMinute := 2, batchSize := 1 },
    features := {} }

/-- A catalog document for the free plan whose monthly limit, 50, differs
from the hardcoded table's 100. -/
def pFree50 : Pricing :=
  { plan := "free", pricePerCall := 0,
    limits := { monthlyCalls := 50, dailyCalls := 5, requestsPerMinute := 2, batchSize := 1 },
    features := {} }

/-- A server state whose user already consumed the whole monthly limit of
pFree. -/
def stAtLimit : ServerState :=
  { user := { usage := { totalCalls := 10, monthlyCalls := 10 } } }

/-- An apicalls document that is already closed as failed. -/
def closedCall : ApiCall :=
  { responseStatus := .error, completedAt := some 5, errorMessage := some "boom",
    errorCode := some "E", cost := 0, timestamp := 0 }

/-- A daily-window probe: one successful event two hours into day one,
evaluated one hour into day two (timestamps in milliseconds). -/
def eveningCall : ApiCall := { timestamp := 7200000 }

/-! Helper lemmas shared by the claim theorems. -/

/-- When the middleware allows a non-admin request with a present plan, the
monthly counter it read is strictly below the plan's monthly limit. -/
theorem planRateLimit_allow_monthly {role : String} {p : Pricing} {u : Nat}
    {da ma : List ApiCall} {now sod : Int} (hrole : role ≠ "admin")
    (h : planRateLimit role (Except.ok (some p)) (Except.ok u) (Except.ok da)
          (Except.ok ma) now sod = Decision.allow) :
    u < p.limits.monthlyCalls := by
  by_contra hcon
  push_neg at hcon
  simp [planRateLimit, planRateLimitBody, hrole, hcon] at h

/-- The reset stage never increases the monthly counter. -/
theorem resetStage_monthly_le (sr : Bool) (st : ServerState) :
    (resetStage sr st).user.usage.monthlyCalls ≤ st.user.usage.monthlyCalls := by
  cases sr <;> simp [resetStage, checkMonthlyReset]

/-- The single-summary controller adds at most one to the monthly counter. -/
theorem summaryController_monthly_le (plan : String) (pricingLookup : Option Pricing)
    (now : Int) (extOk : Bool) (rd : ResponseData) (errMsg errCode : String)
    (st : ServerState) :
    (summaryController plan pricingLookup now extOk rd errMsg errCode st).user.usage.monthlyCalls
      ≤ st.user.usage.monthlyCalls + 1 := by
  cases pricingLookup with
  | none =>
    unfold summaryController
    split <;> first | omega | (simp [UserState.incrementUsage]; try omega)
  | some pricing =>
    unfold summaryController
    cases extOk <;> split <;> (try split) <;>
      first | omega | (simp [UserState.incrementUsage]; try omega)

/-- The batch controller adds at most one to the monthly counter. -/
theorem batchController_monthly_le (pricingLookup : Option Pricing) (now : Int)
    (n : Nat) (extOk : Bool) (rd : ResponseData) (errMsg errCode : String)
    (st : ServerState) :
    (batchController pricingLookup now n extOk rd errMsg errCode st).user.usage.monthlyCalls
      ≤ st.user.usage.monthlyCalls + 1 := by
  cases pricingLookup with
  | none =>
    unfold batchController
    split <;> first | omega | (simp [UserState.incrementUsage]; try omega)
  | some pricing =>
    unfold batchController
    cases extOk <;> split <;> (try split) <;> (try split) <;> (try split) <;> (try split) <;>
      first | omega | (simp [UserState.incrementUsage]; try omega)

/-- One admission operation of a non-admin user preserves the invariant
that the monthly counter is at most the catalog monthly limit. -/
theorem applyOp_monthly_le (role plan : String) (p : Pricing) (st : ServerState)
    (op : AdmissionOp) (hrole : role ≠ "admin")
    (hle : st.user.usage.monthlyCalls ≤ p.limits.monthlyCalls) :
    (applyOp role plan (some p) st op).user.usage.monthlyCalls ≤ p.limits.monthlyCalls := by
  have hreset : ∀ sr, (resetStage sr st).user.usage.monthlyCalls ≤ p.limits.monthlyCalls :=
    fun sr => le_trans (resetStage_monthly_le sr st) hle
  cases op with
  | summary sr now sod extOk rd m c =>
    simp only [applyOp, handleSummary]
    split
    · rename_i hd
      have hlt := planRateLimit_allow_monthly hrole hd
      have hb := summaryController_monthly_le plan (some p) now extOk rd m c (resetStage sr st)
      omega
    · exact hreset sr
  | batch sr now sod n extOk rd m c =>
    simp only [applyOp, handleBatch]
    split
    · rename_i hd
      have hlt := planRateLimit_allow_monthly hrole hd
      have hb := batchController_monthly_le (some p) now n extOk rd m c (resetStage sr st)
      omega
    · exact hreset sr

/-! Claim theorems. -/

/-- C1, counterexample: the claim fails as stated for admin users. With the
free catalog plan (monthly limit 10) and a user who already consumed 10
calls, one more admission operation of an admin user is allowed (the
middleware passes admin users through and canMakeApiCall compares against
the hardcoded 100) and increments the counter to 11, above the plan's
monthly call limit of 10. -/
theorem admin_request_exceeds_catalog_limit :
    (runOps "admin" "free" (some pFree) stAtLimit
        [AdmissionOp.summary false 0 0 true {} "" ""]).user.usage.monthlyCalls = 11
    ∧ pFree.limits.monthlyCalls = 10 := by
  constructor <;> decide

/-- C1, amended: for every non-admin user, under error-free evaluation, any
sequence of admission operations (each a rate-limit check followed by the
usage increment, run to completion before the next) keeps
usage.monthlyCalls at or below the catalog plan's monthly call limit; every
increment path is guarded by a strict comparison against the limit, and a
denied admission leaves the counter untouched rather than clamping it. -/
theorem monthly_invariant_nonadmin (role plan : String) (p : Pricing)
    (ops : List AdmissionOp) (st : ServerState) (hrole : role ≠ "admin")
    (hle : st.user.usage.monthlyCalls ≤ p.limits.monthlyCalls) :
    (runOps role plan (some p) st ops).user.usage.monthlyCalls ≤ p.limits.monthlyCalls := by
  induction ops generalizing st with
  | nil => exact hle
  | cons op ops ih =>
    simp only [runOps]
    exact ih (applyOp role plan (some p) st op)
      (applyOp_monthly_le role plan p st op hrole hle)

/-- C1, witness: a concrete non-admin run of one single and one batch
admission on the free plan stays within the monthly limit. -/
theorem monthly_invariant_nonadmin_witness :
    (runOps "user" "free" (some pFree) {}
        [AdmissionOp.summary false 0 0 true {} "" "",
         AdmissionOp.batch false 0 0 2 true {} "" ""]).user.usage.monthlyCalls
      ≤ pFree.limits.monthlyCalls :=
  monthly_invariant_nonadmin "user" "free" pFree
    [AdmissionOp.summary false 0 0 true {} "" "",
     AdmissionOp.batch false 0 0 2 true {} "" ""] {} (by decide) (by decide)

/-- C2, code bug: an admitted batch of two items on a batch-capable plan
with ten monthly calls remaining increments usage.monthlyCalls by exactly
one, not by the item count: getBatchSummaries charges the item count
against the remaining quota but then calls incrementUsage once, and
incrementUsage always adds one. -/
theorem batch_admission_increments_monthly_by_one :
    (handleBatch "user" (some pBatch) false 0 0 2 true {} "" "" {}).user.usage.monthlyCalls = 1
    ∧ (1 : Nat) ≠ 2 := by
  constructor <;> decide

/-- C3, counterexample: markCompleted called on an already-failed (closed)
event is not rejected as an already-closed error; it silently flips
responseStatus to success and restamps completedAt, so the fields of a
non-pending event are not immutable. -/
theorem closed_event_overwritten :
    (closedCall.markCompleted 10 {}).responseStatus = ResponseStatus.success
    ∧ closedCall.responseStatus = ResponseStatus.error
    ∧ closedCall.markCompleted 10 {} ≠ closedCall := by
  refine ⟨by decide, by decide, by decide⟩

/-- C3, amended: markCompleted and markFailed close an event
unconditionally: whatever the current state (the schema has no pending
state; documents are created with the success default), markCompleted sets
responseStatus to success and markFailed sets it to error, both restamping
completedAt to now; a second close is never rejected. -/
theorem mark_transitions_unconditional (c : ApiCall) (now : Int) (rd : ResponseData)
    (errMsg errCode : String) :
    (c.markCompleted now rd).responseStatus = ResponseStatus.success
    ∧ (c.markCompleted now rd).completedAt = some now
    ∧ (c.markFailed now errMsg errCode).responseStatus = ResponseStatus.error
    ∧ (c.markFailed now errMsg errCode).completedAt = some now := by
  rcases rd with ⟨rt, tu, rs⟩
  cases rt <;> cases tu <;> cases rs <;>
    simp [ApiCall.markCompleted, ApiCall.markFailed]

/-- C4, counterexample: from a fresh state on the free plan, a request
whose external work fails leaves usage.monthlyCalls at 0, while the same
request completing successfully brings it to 1 — a failed request does not
consume the same monthly quota as a successful one (it consumes none). -/
theorem failed_event_consumes_no_quota_concrete :
    (handleSummary "user" "free" (some pFree) false 0 0 false {} "boom" "E"
      ({} : ServerState)).user.usage.monthlyCalls = 0
    ∧ (handleSummary "user" "free" (some pFree) false 0 0 true {} "" ""
      ({} : ServerState)).user.usage.monthlyCalls = 1 := by
  constructor <;> decide

/-- C4, amended: when the external summarization work fails after an
admitted request's usage event was opened, the monthly usage counter is not
incremented at all: incrementUsage runs only on the success path after
markCompleted, and the catch path only marks the event failed, so a failed
request consumes no monthly quota. -/
theorem failed_external_call_preserves_monthly (role plan : String)
    (pricingLookup : Option Pricing) (now sod : Int) (rd : ResponseData)
    (errMsg errCode : String) (st : ServerState) :
    (handleSummary role plan pricingLookup false now sod false rd errMsg errCode
      st).user.usage.monthlyCalls = st.user.usage.monthlyCalls := by
  have hrs : resetStage false st = st := rfl
  unfold handleSummary
  rw [hrs]
  split
  · unfold summaryController
    split
    · cases pricingLookup <;> simp
    · rfl
  · rfl

/-- C5, counterexample: at a call count equal to a tier threshold the code
and the claim disagree. With pricePerCall 0.01, getEffectivePrice at
exactly 1000 returns 0.01 (the source compares with strictly-greater-than),
while the highest tier whose threshold is less than or equal to 1000 is
(1000, 0.95), giving 0.0095 under the claim. -/
theorem effective_price_at_exact_threshold :
    pScenario.getEffectivePrice 1000
      ≠ specTierPriceInclusive [(1000, 19 / 20), (10000, 9 / 10)]
          pScenario.pricePerCall 1000 := by
  norm_num [Pricing.getEffectivePrice, pScenario, specTierPriceInclusive,
    List.filter, List.getLast?]

/-- C5, amended: the per-unit price equals pricePerCall multiplied by the
factor of the highest tier whose threshold is strictly less than the
pre-request count (and pricePerCall unmultiplied when no threshold is
below it), with the tiers hardcoded to (1000, 0.95) and (10000, 0.9); in
particular at count 1500 with pricePerCall 0.01 the price is 0.0095. -/
theorem effective_price_matches_strict_tiers :
    (∀ (p : Pricing) (k : Nat),
        p.getEffectivePrice k
          = specTierPriceStrict [(1000, 19 / 20), (10000, 9 / 10)] p.pricePerCall k)
    ∧ pScenario.getEffectivePrice 1500 = 19 / 2000 := by
  constructor
  · intro p k
    by_cases h1 : 10000 < k
    · have h2 : 1000 < k := by omega
      simp [Pricing.getEffectivePrice, specTierPriceStrict, List.filter,
        List.getLast?, h1, h2]
    · by_cases h2 : 1000 < k
      · simp [Pricing.getEffectivePrice, specTierPriceStrict, List.filter,
          List.getLast?, h1, h2]
      · simp [Pricing.getEffectivePrice, specTierPriceStrict, List.filter,
          List.getLast?, h1, h2]
  · norm_num [Pricing.getEffectivePrice, pScenario]

/-- C6, counterexample: one successful event two hours into day one, seen
one hour into day two. It lies inside the rolling trailing twenty-four-hour
window, so the claimed check (daily limit 1, unit count 1) denies; the code
counts only events at or after midnight of the current day, sees zero, and
the middleware allows the request. -/
theorem daily_check_not_rolling_window :
    planRateLimit "user" (Except.ok (some pDaily1)) (Except.ok 0)
        (Except.ok [eveningCall]) (Except.ok [eveningCall]) 90000000 86400000
      = Decision.allow
    ∧ specRollingDailyDenies [eveningCall] 90000000 1 pDaily1.limits.dailyCalls = true := by
  constructor <;> decide

/-- C6, amended: the daily check counts the user's apicalls whose timestamp
is at or after midnight of the current calendar day, with no restriction on
their state, and (monthly check having passed) the middleware returns the
daily denial exactly when that count is at least the plan's daily call
limit, which for a single-unit request is the same as count plus one
exceeding the limit. -/
theorem daily_check_calendar_day (role : String) (p : Pricing) (u : Nat)
    (evs evs2 : List ApiCall) (now sod : Int) (hrole : role ≠ "admin")
    (hm : u < p.limits.monthlyCalls) :
    (planRateLimit role (Except.ok (some p)) (Except.ok u) (Except.ok evs)
        (Except.ok evs2) now sod = Decision.dailyLimitExceeded
      ↔ p.limits.dailyCalls ≤ todaysCallCount evs sod) := by
  have hm2 : ¬ p.limits.monthlyCalls ≤ u := by omega
  constructor
  · intro h
    by_contra hd
    by_cases hr : p.limits.requestsPerMinute ≤ recentCallCount evs2 now <;>
      simp [planRateLimit, planRateLimitBody, hrole, hm2, hd, hr] at h
  · intro hd
    simp [planRateLimit, planRateLimitBody, hrole, hm2, hd]

/-- C6, witness: with five events since midnight on the free plan (daily
limit five), the middleware returns the daily denial. -/
theorem daily_check_calendar_day_witness :
    planRateLimit "user" (Except.ok (some pFree)) (Except.ok 0)
        (Except.ok [{}, {}, {}, {}, {}]) (Except.ok []) 0 0
      = Decision.dailyLimitExceeded :=
  (daily_check_calendar_day "user" pFree 0 [{}, {}, {}, {}, {}] [] 0 0
    (by decide) (by decide)).mpr (by decide)

/-- C7, counterexample: a storage error during the evaluation (the plan
lookup throws) for a non-admin request does not produce a deny decision;
the catch handler calls next(), so the request is admitted. -/
theorem evaluation_error_is_admitted :
    planRateLimit "user" (Except.error ()) (Except.ok 0) (Except.ok [])
        (Except.ok []) 0 0 = Decision.allow
    ∧ "user" ≠ "admin" := by
  constructor <;> decide

/-- C7, amended: the middleware never throws to the caller, but it is
fail-open, not fail-closed: whenever the evaluation body ends in an error,
the result is allow (next() is called), so an evaluation error always
results in the request being admitted by this middleware, never denied. -/
theorem middleware_fail_open (role : String) (gp : Except Unit (Option Pricing))
    (ru : Except Unit Nat) (da ma : Except Unit (List ApiCall)) (now sod : Int)
    (h : planRateLimitBody gp ru da ma now sod = Except.error ()) :
    planRateLimit role gp ru da ma now sod = Decision.allow := by
  unfold planRateLimit
  split
  · rfl
  · rw [h]

/-- C7, witness: the fail-open theorem applied to a concrete failing plan
lookup. -/
theorem middleware_fail_open_witness :
    planRateLimit "user" (Except.error ()) (Except.ok 3) (Except.ok [])
        (Except.ok []) 0 0 = Decision.allow :=
  middleware_fail_open "user" (Except.error ()) (Except.ok 3) (Except.ok [])
    (Except.ok []) 0 0 rfl

/-- C8: getEffectivePrice is a function of the plan and the pre-request
count alone (it is a pure Lean function of those two arguments), and for a
plan with non-negative pricePerCall it is monotonically non-increasing in
the count across the discount thresholds. -/
theorem effective_price_antitone (p : Pricing) (k1 k2 : Nat)
    (hp : 0 ≤ p.pricePerCall) (hk : k1 ≤ k2) :
    p.getEffectivePrice k2 ≤ p.getEffectivePrice k1 := by
  unfold Pricing.getEffectivePrice
  split_ifs <;> first | omega | linarith

/-- C8, witness: on the 0.01 plan the price at 1500 calls is at most the
price at 500 calls. -/
theorem effective_price_antitone_witness :
    pScenario.getEffectivePrice 1500 ≤ pScenario.getEffectivePrice 500 :=
  effective_price_antitone pScenario 500 1500 (by norm_num [pScenario]) (by norm_num)

/-- C9: a request whose user has role admin is passed through by the plan
rate-limit middleware whatever the plan lookup, counters and event
aggregates are — even erroring ones — so no plan-not-found, monthly, daily
or per-minute denial can ever be returned to an admin user by this
middleware. -/
theorem admin_bypasses_plan_rate_limit (gp : Except Unit (Option Pricing))
    (ru : Except Unit Nat) (da ma : Except Unit (List ApiCall)) (now sod : Int) :
    planRateLimit "admin" gp ru da ma now sod = Decision.allow := by
  unfold planRateLimit
  rw [if_pos rfl]

/-- C10: canMakeApiCall compares usage.monthlyCalls against the hardcoded
per-plan table (free 100, basic 1000, premium 10000, enterprise 100000,
anything else falling back to the free row) and nothing else; on the same
request (free plan with a catalog document whose monthly limit is 50 and a
counter at 60) the controller check passes while the middleware check
denies, so the two monthly checks use different limit values. -/
theorem controller_monthly_check_hardcoded :
    getUsageLimits "free" = { monthly := 100, daily := 10 }
    ∧ getUsageLimits "basic" = { monthly := 1000, daily := 100 }
    ∧ getUsageLimits "premium" = { monthly := 10000, daily := 1000 }
    ∧ getUsageLimits "enterprise" = { monthly := 100000, daily := 10000 }
    ∧ (∀ plan : String, plan ≠ "free" → plan ≠ "basic" → plan ≠ "premium" →
        plan ≠ "enterprise" → getUsageLimits plan = { monthly := 100, daily := 10 })
    ∧ (∀ (plan : String) (m : Nat),
        canMakeApiCall plan m = decide (m < (getUsageLimits plan).monthly))
    ∧ canMakeApiCall "free" 60 = true
    ∧ planRateLimit "user" (Except.ok (some pFree50)) (Except.ok 60) (Except.ok [])
        (Except.ok []) 0 0 = Decision.monthlyLimitExceeded := by
  refine ⟨by decide, by decide, by decide, by decide, ?_, fun plan m => rfl,
    by decide, by decide⟩
  intro plan h1 h2 h3 h4
  simp [getUsageLimits, h1, h2, h3, h4]

/-- C10, witness: an unknown plan name falls back to the free row. -/
theorem controller_monthly_check_hardcoded_witness :
    getUsageLimits "pro" = { monthly := 100, daily := 10 } :=
  controller_monthly_check_hardcoded.2.2.2.2.1 "pro" (by decide) (by decide)
    (by decide) (by decide)

end WikiSynth
